import Mathlib

/-!
Verification of the query-builder and sanitizer component of PgDbToolkit
(`pgdbtoolkit/sync_db.py`).  Python strings are modelled as lists of
characters (`Str`); Python dicts as association lists in insertion order;
Python exceptions as the `Except` monad.  `build_query` never inspects the
mapped values, so it is polymorphic in the value type `α`.
-/

/-- Python strings modelled as lists of Unicode code points. -/
abbrev Str := List Char

/-- Coerce a Lean string literal to the `Str` model. -/
def str (s : String) : Str := s.data

/-- `identifier.replace('"', '""')` from `sanitize_identifier`:
single-character replacement that doubles every double-quote. -/
def escQuote : Str → Str
  | [] => []
  | c :: rest => if c = '"' then '"' :: '"' :: escQuote rest else c :: escQuote rest

/-- `PgDbToolkit.sanitize_identifier`:
`return '"{}"'.format(identifier.replace('"', '""'))`. -/
def sanitize_identifier (identifier : Str) : Str :=
  '"' :: escQuote identifier ++ ['"']

/-- Python truthiness of an optional dict: `None` and the empty dict are
falsy, a non-empty dict is truthy. -/
def truthy (o : Option (List α)) : Bool :=
  match o with
  | none => false
  | some l => !l.isEmpty

/-- `str.join` in Python: `sep.join(pieces)`. -/
def pyJoin (sep : Str) : List Str → Str
  | [] => []
  | [x] => x
  | x :: y :: rest => x ++ sep ++ pyJoin sep (y :: rest)

/-- The list comprehension `["{}= %s".format(self.sanitize_identifier(k))
for k in conditions.keys()]` shared by the SELECT, UPDATE and DELETE
branches of `build_query`. -/
def condPieces (conds : List (Str × α)) : List Str :=
  conds.map (fun kv => sanitize_identifier kv.1 ++ str "= %s")

/-- `PgDbToolkit.build_query`.  `data` and `conditions` are optional
insertion-ordered dicts with string keys and values of an arbitrary type
`α` (the source never inspects the values, it only moves them into the
parameter list).  A raised `ValueError` is modelled as `Except.error`
carrying the message. -/
def build_query (table_name : Str) (data : Option (List (Str × α)))
    (conditions : Option (List (Str × α))) (query_type : Str) :
    Except Str (Str × List α) :=
  let table := sanitize_identifier table_name
  if query_type = str "SELECT" then
    let base := str "SELECT * FROM " ++ table
    if truthy conditions then
      let cs := conditions.getD []
      let condition_str := pyJoin (str " AND ") (condPieces cs)
      .ok (base ++ str " WHERE " ++ condition_str, cs.map Prod.snd)
    else
      .ok (base, [])
  else if query_type = str "INSERT" then
    if truthy data then
      let d := data.getD []
      let columns := pyJoin (str ", ") (d.map (fun kv => sanitize_identifier kv.1))
      let placeholders := pyJoin (str ", ") (d.map (fun _ => str "%s"))
      .ok (str "INSERT INTO " ++ table ++ str " (" ++ columns ++
             str ") VALUES (" ++ placeholders ++ str ")",
           d.map Prod.snd)
    else
      .error (str "INSERT queries require data.")
  else if query_type = str "UPDATE" then
    if truthy data then
      let d := data.getD []
      let set_str := pyJoin (str ", ") (condPieces d)
      let base := str "UPDATE " ++ table ++ str " SET " ++ set_str
      if truthy conditions then
        let cs := conditions.getD []
        let condition_str := pyJoin (str " AND ") (condPieces cs)
        .ok (base ++ str " WHERE " ++ condition_str,
             d.map Prod.snd ++ cs.map Prod.snd)
      else
        .ok (base, d.map Prod.snd)
    else
      .error (str "UPDATE queries require data.")
  else if query_type = str "DELETE" then
    if truthy conditions then
      let cs := conditions.getD []
      let condition_str := pyJoin (str " AND ") (condPieces cs)
      .ok (str "DELETE FROM " ++ table ++ str " WHERE " ++ condition_str,
           cs.map Prod.snd)
    else
      .error (str "DELETE queries require at least one condition.")
  else
    .error (str "Query type \x27" ++ query_type ++ str "\x27 not recognized.")

/-- Number of occurrences of the positional-placeholder marker `%s` in a
string, counted over a sliding window of adjacent characters (the pattern
`%s` cannot overlap itself, so this equals the substring-occurrence
count). -/
def countPS : Str → Nat
  | [] => 0
  | [_] => 0
  | a :: b :: rest => (if a = '%' ∧ b = 's' then 1 else 0) + countPS (b :: rest)

/-- The boundary term contributed by gluing two strings together. -/
def psBoundary (xs ys : Str) : Nat :=
  if xs.getLast? = some '%' ∧ ys.head? = some 's' then 1 else 0

/-- The key sequence of an optional dict (`[]` for `None`). -/
def keysOf (o : Option (List (Str × α))) : List Str :=
  (o.getD []).map Prod.fst

/-! ### Model of Python values for `sanitize_value` (C3, C7) -/

mutual
inductive PyVal : Type where
  | vnone : PyVal
  | vbool (b : Bool) : PyVal
  | vint (n : Int) : PyVal
  | vfloat (repr : Str) : PyVal
  | vstr (s : Str) : PyVal
  | vother (s : Str) : PyVal
  | vlist (xs : PyList) : PyVal
  | vdict (kvs : PyDict) : PyVal
inductive PyList : Type where
  | nil : PyList
  | cons (hd : PyVal) (tl : PyList) : PyList
inductive PyDict : Type where
  | nil : PyDict
  | cons (k : Str) (v : PyVal) (tl : PyDict) : PyDict
end

def lbrace : Char := Char.ofNat 123

def rbrace : Char := Char.ofNat 125

def hexDigit (n : Nat) : Char :=
  if n < 10 then Char.ofNat (48 + n) else Char.ofNat (87 + n)

def hex4 (n : Nat) : Str :=
  [hexDigit (n / 4096 % 16), hexDigit (n / 256 % 16), hexDigit (n / 16 % 16),
   hexDigit (n % 16)]

/-- `\uXXXX` escape used by `json.dumps` with `ensure_ascii=True`, with a
surrogate pair for code points beyond the basic multilingual plane. -/
def uEsc (n : Nat) : Str :=
  if n < 65536 then '\\' :: 'u' :: hex4 n
  else ('\\' :: 'u' :: hex4 (55296 + (n - 65536) / 1024)) ++
       ('\\' :: 'u' :: hex4 (56320 + (n - 65536) % 1024))

/-- Escape of one character inside a JSON string literal, as performed by
`json.dumps` (default `ensure_ascii=True`). -/
def jsonEscChar (c : Char) : Str :=
  if c = '"' then ['\\', '"']
  else if c = '\\' then ['\\', '\\']
  else if c = '\n' then ['\\', 'n']
  else if c = '\t' then ['\\', 't']
  else if c = '\r' then ['\\', 'r']
  else if c = Char.ofNat 8 then ['\\', 'b']
  else if c = Char.ofNat 12 then ['\\', 'f']
  else if c.toNat < 32 ∨ 126 < c.toNat then uEsc c.toNat
  else [c]

/-- A JSON string literal for `s`. -/
def jsonQuote (s : Str) : Str := '"' :: s.flatMap jsonEscChar ++ ['"']

mutual
/-- `json.dumps(value)` with default arguments, for the modelled Python
values.  `none` models the `TypeError` raised on objects that are not JSON
serializable (the `vother` constructor). -/
def jsonDumps : PyVal → Option Str
  | .vnone => some (str "null")
  | .vbool true => some (str "true")
  | .vbool false => some (str "false")
  | .vint n => some (toString n).data
  | .vfloat r => some r
  | .vstr s => some (jsonQuote s)
  | .vother _ => none
  | .vlist xs =>
    match jsonDumpsList xs with
    | some ps => some ('[' :: pyJoin (str ", ") ps ++ [']'])
    | none => none
  | .vdict kvs =>
    match jsonDumpsKvs kvs with
    | some ps => some (lbrace :: pyJoin (str ", ") ps ++ [rbrace])
    | none => none
def jsonDumpsList : PyList → Option (List Str)
  | .nil => some []
  | .cons v tl =>
    match jsonDumps v, jsonDumpsList tl with
    | some s, some rest => some (s :: rest)
    | _, _ => none
def jsonDumpsKvs : PyDict → Option (List Str)
  | .nil => some []
  | .cons k v tl =>
    match jsonDumps v, jsonDumpsKvs tl with
    | some s, some rest => some ((jsonQuote k ++ str ": " ++ s) :: rest)
    | _, _ => none
end

mutual
/-- No non-JSON-serializable object (`vother`) occurs anywhere inside. -/
def noOther : PyVal → Bool
  | .vother _ => false
  | .vlist xs => noOtherList xs
  | .vdict kvs => noOtherKvs kvs
  | _ => true
def noOtherList : PyList → Bool
  | .nil => true
  | .cons v tl => noOther v && noOtherList tl
def noOtherKvs : PyDict → Bool
  | .nil => true
  | .cons _ v tl => noOther v && noOtherKvs tl
end

/-- `PgDbToolkit.sanitize_value`: composites (`list`/`dict`) are serialized
with `json.dumps` (which raises `TypeError` on unserializable contents),
driver primitives are returned unchanged, anything else is stringified via
`str(value)` (the `vother` payload carries that string). -/
def sanitize_value : PyVal → Except Str PyVal
  | .vlist xs =>
    match jsonDumps (.vlist xs) with
    | some s => .ok (.vstr s)
    | none => .error (str "TypeError: not JSON serializable")
  | .vdict kvs =>
    match jsonDumps (.vdict kvs) with
    | some s => .ok (.vstr s)
    | none => .error (str "TypeError: not JSON serializable")
  | .vother s => .ok (.vstr s)
  | v => .ok v

/-- `isinstance(value, (list, dict))` — the composite classification of the
spec. -/
def isComposite : PyVal → Bool
  | .vlist _ => true
  | .vdict _ => true
  | _ => false

/-- `isinstance(value, (int, float, str, bool, type(None)))` — the driver
primitive classification of the spec. -/
def isPrimitive : PyVal → Bool
  | .vnone => true
  | .vbool _ => true
  | .vint _ => true
  | .vfloat _ => true
  | .vstr _ => true
  | _ => false

/-! ### Counting lemmas for the placeholder marker -/

theorem countPS_cons (a : Char) (l : Str) :
    countPS (a :: l) = (if a = '%' ∧ l.head? = some 's' then 1 else 0) + countPS l := by
  cases l with
  | nil => simp [countPS]
  | cons b rest => simp [countPS]

theorem countPS_append (xs ys : Str) :
    countPS (xs ++ ys) = countPS xs + countPS ys + psBoundary xs ys := by
  induction xs with
  | nil => simp [countPS, psBoundary]
  | cons a t ih =>
    cases t with
    | nil =>
      rw [List.singleton_append, countPS_cons]
      have h4 : psBoundary [a] ys = if a = '%' ∧ ys.head? = some 's' then 1 else 0 := by
        simp [psBoundary]
      have h3 : countPS [a] = 0 := rfl
      rw [h4, h3]
      omega
    | cons b r =>
      rw [List.cons_append, countPS_cons, ih, countPS_cons (a := a) (l := b :: r)]
      unfold psBoundary
      simp only [List.cons_append, List.head?_cons, List.getLast?_cons_cons]
      omega

theorem countPS_append_left (xs ys : Str) (h : xs.getLast? ≠ some '%') :
    countPS (xs ++ ys) = countPS xs + countPS ys := by
  have hb : psBoundary xs ys = 0 := by
    unfold psBoundary
    rw [if_neg]
    tauto
  rw [countPS_append, hb, Nat.add_zero]

theorem countPS_append_right (xs ys : Str) (h : ys.head? ≠ some 's') :
    countPS (xs ++ ys) = countPS xs + countPS ys := by
  have hb : psBoundary xs ys = 0 := by
    unfold psBoundary
    rw [if_neg]
    tauto
  rw [countPS_append, hb, Nat.add_zero]

theorem countPS_escQuote (l : Str) : countPS (escQuote l) = countPS l := by
  induction l with
  | nil => rfl
  | cons c t ih =>
    have hhead : (escQuote t).head? = some 's' ↔ t.head? = some 's' := by
      cases t with
      | nil => simp [escQuote]
      | cons d r =>
        by_cases hd : d = '"' <;> simp [escQuote, hd]
    by_cases hc : c = '"'
    · subst hc
      have he : escQuote ('"' :: t) = '"' :: '"' :: escQuote t := by simp [escQuote]
      rw [he, countPS_cons, countPS_cons, countPS_cons (l := t), ih]
      simp [show ('"' : Char) ≠ '%' from by decide]
    · have he : escQuote (c :: t) = c :: escQuote t := by simp [escQuote, hc]
      rw [he, countPS_cons, countPS_cons, ih]
      by_cases hs : t.head? = some 's'
      · simp [hs, hhead.mpr hs]
      · simp [hs, (not_iff_not.mpr hhead).mpr hs]


/-! ### Structure of sanitized identifiers -/

theorem sanitize_identifier_head? (k : Str) :
    (sanitize_identifier k).head? = some '"' := rfl

theorem sanitize_identifier_getLast? (k : Str) :
    (sanitize_identifier k).getLast? = some '"' :=
  List.getLast?_concat ('"' :: escQuote k)

theorem countPS_sanitize_identifier (k : Str) :
    countPS (sanitize_identifier k) = countPS k := by
  unfold sanitize_identifier
  rw [show ('"' :: escQuote k ++ ['"'] : Str) = ('"' :: escQuote k) ++ ['"'] from rfl,
    countPS_append_right _ _ (by decide), countPS_cons]
  have h1 : ¬ (('"' : Char) = '%' ∧ (escQuote k).head? = some 's') := by
    rintro ⟨h, -⟩
    exact absurd h (by decide)
  rw [if_neg h1, countPS_escQuote]
  show 0 + countPS k + 0 = countPS k
  omega

/-! ### Counting placeholders across joins -/

theorem countPS_pyJoin (sep : Str) (pieces : List Str)
    (hsep0 : countPS sep = 0) (hsepLast : sep.getLast? ≠ some '%')
    (hp : ∀ p ∈ pieces, p.getLast? ≠ some '%') :
    countPS (pyJoin sep pieces) = (pieces.map countPS).sum := by
  induction pieces with
  | nil => simp [pyJoin, countPS]
  | cons x rest ih =>
    cases rest with
    | nil => simp [pyJoin]
    | cons y r =>
      have hx : x.getLast? ≠ some '%' := hp x (List.mem_cons_self x _)
      have hjoin : pyJoin sep (x :: y :: r) = x ++ (sep ++ pyJoin sep (y :: r)) := by
        simp [pyJoin, List.append_assoc]
      rw [hjoin, countPS_append_left _ _ hx, countPS_append_left _ _ hsepLast,
        hsep0, ih (fun p h => hp p (List.mem_cons_of_mem _ h))]
      simp

theorem condPiece_getLast? (k : Str) (v : α) :
    ((fun kv => sanitize_identifier kv.1 ++ str "= %s") (k, v)).getLast? = some 's' := by
  simp [List.getLast?_append, str]

theorem countPS_condPiece (k : Str) (hk : countPS k = 0) :
    countPS (sanitize_identifier k ++ str "= %s") = 1 := by
  rw [countPS_append_right _ _ (by decide), countPS_sanitize_identifier, hk]
  decide

theorem countPS_condClause (l : List (Str × α))
    (hk : ∀ kv ∈ l, countPS kv.1 = 0) (sep : Str)
    (hsep0 : countPS sep = 0) (hsepLast : sep.getLast? ≠ some '%') :
    countPS (pyJoin sep (condPieces l)) = l.length := by
  rw [countPS_pyJoin sep _ hsep0 hsepLast]
  · rw [condPieces, List.map_map]
    have hmap : l.map (countPS ∘ fun kv => sanitize_identifier kv.1 ++ str "= %s") =
        l.map (fun _ => 1) := by
      apply List.map_congr_left
      intro kv hkv
      exact countPS_condPiece kv.1 (hk kv hkv)
    rw [hmap, List.map_const', List.sum_replicate, smul_eq_mul, Nat.mul_one]
  · intro p hp
    rw [condPieces] at hp
    obtain ⟨kv, hkv, rfl⟩ := List.mem_map.mp hp
    rw [show (sanitize_identifier kv.1 ++ str "= %s").getLast? = some 's' from by
      simp [List.getLast?_append, str]]
    decide

theorem countPS_columns (l : List (Str × α))
    (hk : ∀ kv ∈ l, countPS kv.1 = 0) :
    countPS (pyJoin (str ", ") (l.map (fun kv => sanitize_identifier kv.1))) = 0 := by
  rw [countPS_pyJoin _ _ (by decide) (by decide)]
  · rw [List.map_map]
    have hmap : l.map (countPS ∘ fun kv => sanitize_identifier kv.1) =
        l.map (fun _ => 0) := by
      apply List.map_congr_left
      intro kv hkv
      simp [Function.comp, countPS_sanitize_identifier, hk kv hkv]
    rw [hmap, List.map_const', List.sum_replicate, smul_eq_mul, Nat.mul_zero]
  · intro p hp
    obtain ⟨kv, hkv, rfl⟩ := List.mem_map.mp hp
    rw [sanitize_identifier_getLast?]
    decide

theorem countPS_placeholders (l : List (Str × α)) :
    countPS (pyJoin (str ", ") (l.map (fun _ => str "%s"))) = l.length := by
  rw [countPS_pyJoin _ _ (by decide) (by decide)]
  · rw [List.map_map]
    have hmap : l.map (countPS ∘ fun _ => str "%s") = l.map (fun _ => 1) := by
      apply List.map_congr_left
      intro kv _
      show countPS (str "%s") = 1
      decide
    rw [hmap, List.map_const', List.sum_replicate, smul_eq_mul, Nat.mul_one]
  · intro p hp
    obtain ⟨kv, hkv, rfl⟩ := List.mem_map.mp hp
    decide

theorem getLast?_append_of_getLast? {xs ys : Str} {c : Char}
    (h : ys.getLast? = some c) : (xs ++ ys).getLast? = some c := by
  rw [List.getLast?_append, h]
  rfl

theorem countPS_append_last (xs ys : Str) (c : Char) (hc : xs.getLast? = some c)
    (hne : c ≠ '%') : countPS (xs ++ ys) = countPS xs + countPS ys :=
  countPS_append_left _ _ (by rw [hc]; simp [hne])

theorem countPS_append_head (xs ys : Str) (c : Char) (hc : ys.head? = some c)
    (hne : c ≠ 's') : countPS (xs ++ ys) = countPS xs + countPS ys :=
  countPS_append_right _ _ (by rw [hc]; simp [hne])

theorem countPS_select_stmt {α : Type} (table : Str) (cs : List (Str × α))
    (htable : countPS table = 0) (hk : ∀ kv ∈ cs, countPS kv.1 = 0) :
    countPS (str "SELECT * FROM " ++ sanitize_identifier table ++ str " WHERE " ++
      pyJoin (str " AND ") (condPieces cs)) = cs.length := by
  rw [countPS_append_last _ _ ' ' (getLast?_append_of_getLast? (by decide)) (by decide),
    countPS_append_head _ _ ' ' (by decide) (by decide),
    countPS_append_head _ _ '"' (sanitize_identifier_head? table) (by decide),
    countPS_sanitize_identifier, htable,
    countPS_condClause cs hk _ (by decide) (by decide)]
  have e1 : countPS (str "SELECT * FROM ") = 0 := by decide
  have e2 : countPS (str " WHERE ") = 0 := by decide
  omega

theorem countPS_insert_stmt {α : Type} (table : Str) (d : List (Str × α))
    (htable : countPS table = 0) (hk : ∀ kv ∈ d, countPS kv.1 = 0) :
    countPS (str "INSERT INTO " ++ sanitize_identifier table ++ str " (" ++
      pyJoin (str ", ") (d.map (fun kv => sanitize_identifier kv.1)) ++
      str ") VALUES (" ++ pyJoin (str ", ") (d.map (fun _ => str "%s")) ++
      str ")") = d.length := by
  rw [countPS_append_head _ _ ')' (by decide) (by decide),
    countPS_append_last _ _ '(' (getLast?_append_of_getLast? (by decide)) (by decide),
    countPS_append_head _ _ ')' (by decide) (by decide),
    countPS_append_last _ _ '(' (getLast?_append_of_getLast? (by decide)) (by decide),
    countPS_append_head _ _ ' ' (by decide) (by decide),
    countPS_append_head _ _ '"' (sanitize_identifier_head? table) (by decide),
    countPS_sanitize_identifier, htable, countPS_columns d hk,
    countPS_placeholders d]
  have e1 : countPS (str "INSERT INTO ") = 0 := by decide
  have e2 : countPS (str " (") = 0 := by decide
  have e3 : countPS (str ") VALUES (") = 0 := by decide
  have e4 : countPS (str ")") = 0 := by decide
  omega

theorem countPS_update_base {α : Type} (table : Str) (d : List (Str × α))
    (htable : countPS table = 0) (hk : ∀ kv ∈ d, countPS kv.1 = 0) :
    countPS (str "UPDATE " ++ sanitize_identifier table ++ str " SET " ++
      pyJoin (str ", ") (condPieces d)) = d.length := by
  rw [countPS_append_last _ _ ' ' (getLast?_append_of_getLast? (by decide)) (by decide),
    countPS_append_head _ _ ' ' (by decide) (by decide),
    countPS_append_head _ _ '"' (sanitize_identifier_head? table) (by decide),
    countPS_sanitize_identifier, htable,
    countPS_condClause d hk _ (by decide) (by decide)]
  have e1 : countPS (str "UPDATE ") = 0 := by decide
  have e2 : countPS (str " SET ") = 0 := by decide
  omega

theorem countPS_update_where_stmt {α : Type} (table : Str) (d cs : List (Str × α))
    (htable : countPS table = 0) (hk : ∀ kv ∈ d, countPS kv.1 = 0)
    (hc : ∀ kv ∈ cs, countPS kv.1 = 0) :
    countPS (str "UPDATE " ++ sanitize_identifier table ++ str " SET " ++
      pyJoin (str ", ") (condPieces d) ++ str " WHERE " ++
      pyJoin (str " AND ") (condPieces cs)) = d.length + cs.length := by
  rw [countPS_append_last _ _ ' ' (getLast?_append_of_getLast? (by decide)) (by decide),
    countPS_append_head _ _ ' ' (by decide) (by decide),
    countPS_update_base table d htable hk,
    countPS_condClause cs hc _ (by decide) (by decide)]
  have e1 : countPS (str " WHERE ") = 0 := by decide
  omega

theorem countPS_delete_stmt {α : Type} (table : Str) (cs : List (Str × α))
    (htable : countPS table = 0) (hk : ∀ kv ∈ cs, countPS kv.1 = 0) :
    countPS (str "DELETE FROM " ++ sanitize_identifier table ++ str " WHERE " ++
      pyJoin (str " AND ") (condPieces cs)) = cs.length := by
  rw [countPS_append_last _ _ ' ' (getLast?_append_of_getLast? (by decide)) (by decide),
    countPS_append_head _ _ ' ' (by decide) (by decide),
    countPS_append_head _ _ '"' (sanitize_identifier_head? table) (by decide),
    countPS_sanitize_identifier, htable,
    countPS_condClause cs hk _ (by decide) (by decide)]
  have e1 : countPS (str "DELETE FROM ") = 0 := by decide
  have e2 : countPS (str " WHERE ") = 0 := by decide
  omega

/-- **C1 (amended)**: for every invocation of `build_query` that returns a
statement, provided the table name and every data/condition key is free of
the literal substring `%s`, the number of positional placeholders in the
statement equals the length of the parameter list.  (The original claim,
with no proviso on the inputs, is refuted by
`build_query_placeholder_parity_cex`: an identifier containing `%s` smuggles
an extra placeholder marker into the statement text.) -/
theorem build_query_placeholder_parity {α : Type} (table : Str)
    (data conditions : Option (List (Str × α))) (query_type : Str)
    (stmt : Str) (params : List α)
    (htable : countPS table = 0)
    (hdata : ∀ kv ∈ data.getD [], countPS kv.1 = 0)
    (hconds : ∀ kv ∈ conditions.getD [], countPS kv.1 = 0)
    (hok : build_query table data conditions query_type = .ok (stmt, params)) :
    countPS stmt = params.length := by
  simp only [build_query] at hok
  by_cases h1 : query_type = str "SELECT"
  · rw [if_pos h1] at hok
    by_cases ht : truthy conditions = true
    · rw [if_pos ht] at hok
      rw [Except.ok.injEq, Prod.mk.injEq] at hok
      obtain ⟨hstmt, hparams⟩ := hok
      subst hstmt
      subst hparams
      rw [List.length_map]
      exact countPS_select_stmt table _ htable hconds
    · rw [if_neg ht] at hok
      rw [Except.ok.injEq, Prod.mk.injEq] at hok
      obtain ⟨hstmt, hparams⟩ := hok
      subst hstmt
      subst hparams
      rw [countPS_append_head _ _ '"' (sanitize_identifier_head? table) (by decide),
        countPS_sanitize_identifier, htable]
      have e1 : countPS (str "SELECT * FROM ") = 0 := by decide
      simp [e1]
  · rw [if_neg h1] at hok
    by_cases h2 : query_type = str "INSERT"
    · rw [if_pos h2] at hok
      by_cases ht : truthy data = true
      · rw [if_pos ht] at hok
        rw [Except.ok.injEq, Prod.mk.injEq] at hok
        obtain ⟨hstmt, hparams⟩ := hok
        subst hstmt
        subst hparams
        rw [List.length_map]
        exact countPS_insert_stmt table _ htable hdata
      · rw [if_neg ht] at hok
        exact absurd hok (by simp)
    · rw [if_neg h2] at hok
      by_cases h3 : query_type = str "UPDATE"
      · rw [if_pos h3] at hok
        by_cases ht : truthy data = true
        · rw [if_pos ht] at hok
          by_cases hc : truthy conditions = true
          · rw [if_pos hc] at hok
            rw [Except.ok.injEq, Prod.mk.injEq] at hok
            obtain ⟨hstmt, hparams⟩ := hok
            subst hstmt
            subst hparams
            rw [List.length_append, List.length_map, List.length_map]
            exact countPS_update_where_stmt table _ _ htable hdata hconds
          · rw [if_neg hc] at hok
            rw [Except.ok.injEq, Prod.mk.injEq] at hok
            obtain ⟨hstmt, hparams⟩ := hok
            subst hstmt
            subst hparams
            rw [List.length_map]
            exact countPS_update_base table _ htable hdata
        · rw [if_neg ht] at hok
          exact absurd hok (by simp)
      · rw [if_neg h3] at hok
        by_cases h4 : query_type = str "DELETE"
        · rw [if_pos h4] at hok
          by_cases hc : truthy conditions = true
          · rw [if_pos hc] at hok
            rw [Except.ok.injEq, Prod.mk.injEq] at hok
            obtain ⟨hstmt, hparams⟩ := hok
            subst hstmt
            subst hparams
            rw [List.length_map]
            exact countPS_delete_stmt table _ htable hconds
          · rw [if_neg hc] at hok
            exact absurd hok (by simp)
        · rw [if_neg h4] at hok
          exact absurd hok (by simp)

/-! ### Branch-level unfolding equations for `build_query` -/

theorem bq_select_pos {α : Type} (table : Str) (data conditions : Option (List (Str × α)))
    (hc : truthy conditions = true) :
    build_query table data conditions (str "SELECT") =
      .ok (str "SELECT * FROM " ++ sanitize_identifier table ++ str " WHERE " ++
             pyJoin (str " AND ") (condPieces (conditions.getD [])),
           (conditions.getD []).map Prod.snd) := by
  simp only [build_query, if_true]
  rw [if_pos hc]

theorem bq_select_neg {α : Type} (table : Str) (data conditions : Option (List (Str × α)))
    (hc : truthy conditions = false) :
    build_query table data conditions (str "SELECT") =
      .ok (str "SELECT * FROM " ++ sanitize_identifier table, []) := by
  simp only [build_query, if_true]
  rw [if_neg (by simp [hc])]

theorem bq_insert_pos {α : Type} (table : Str) (data conditions : Option (List (Str × α)))
    (hd : truthy data = true) :
    build_query table data conditions (str "INSERT") =
      .ok (str "INSERT INTO " ++ sanitize_identifier table ++ str " (" ++
             pyJoin (str ", ") ((data.getD []).map (fun kv => sanitize_identifier kv.1)) ++
             str ") VALUES (" ++
             pyJoin (str ", ") ((data.getD []).map (fun _ => str "%s")) ++ str ")",
           (data.getD []).map Prod.snd) := by
  simp only [build_query, if_true]
  rw [if_neg (by decide), if_pos hd]

theorem bq_insert_neg {α : Type} (table : Str) (data conditions : Option (List (Str × α)))
    (hd : truthy data = false) :
    build_query table data conditions (str "INSERT") =
      .error (str "INSERT queries require data.") := by
  simp only [build_query, if_true]
  rw [if_neg (by decide), if_neg (by simp [hd])]

theorem bq_update_pos_pos {α : Type} (table : Str) (data conditions : Option (List (Str × α)))
    (hd : truthy data = true) (hc : truthy conditions = true) :
    build_query table data conditions (str "UPDATE") =
      .ok (str "UPDATE " ++ sanitize_identifier table ++ str " SET " ++
             pyJoin (str ", ") (condPieces (data.getD [])) ++ str " WHERE " ++
             pyJoin (str " AND ") (condPieces (conditions.getD [])),
           (data.getD []).map Prod.snd ++ (conditions.getD []).map Prod.snd) := by
  simp only [build_query, if_true]
  rw [if_neg (by decide), if_neg (by decide), if_pos hd, if_pos hc]

theorem bq_update_pos_neg {α : Type} (table : Str) (data conditions : Option (List (Str × α)))
    (hd : truthy data = true) (hc : truthy conditions = false) :
    build_query table data conditions (str "UPDATE") =
      .ok (str "UPDATE " ++ sanitize_identifier table ++ str " SET " ++
             pyJoin (str ", ") (condPieces (data.getD [])),
           (data.getD []).map Prod.snd) := by
  simp only [build_query, if_true]
  rw [if_neg (by decide), if_neg (by decide), if_pos hd, if_neg (by simp [hc])]

theorem bq_update_neg {α : Type} (table : Str) (data conditions : Option (List (Str × α)))
    (hd : truthy data = false) :
    build_query table data conditions (str "UPDATE") =
      .error (str "UPDATE queries require data.") := by
  simp only [build_query, if_true]
  rw [if_neg (by decide), if_neg (by decide), if_neg (by simp [hd])]

theorem bq_delete_pos {α : Type} (table : Str) (data conditions : Option (List (Str × α)))
    (hc : truthy conditions = true) :
    build_query table data conditions (str "DELETE") =
      .ok (str "DELETE FROM " ++ sanitize_identifier table ++ str " WHERE " ++
             pyJoin (str " AND ") (condPieces (conditions.getD [])),
           (conditions.getD []).map Prod.snd) := by
  simp only [build_query, if_true]
  rw [if_neg (by decide), if_neg (by decide), if_neg (by decide), if_pos hc]

theorem bq_delete_neg {α : Type} (table : Str) (data conditions : Option (List (Str × α)))
    (hc : truthy conditions = false) :
    build_query table data conditions (str "DELETE") =
      .error (str "DELETE queries require at least one condition.") := by
  simp only [build_query, if_true]
  rw [if_neg (by decide), if_neg (by decide), if_neg (by decide), if_neg (by simp [hc])]

theorem bq_unrecognized {α : Type} (table : Str) (data conditions : Option (List (Str × α)))
    (query_type : Str)
    (h1 : query_type ≠ str "SELECT") (h2 : query_type ≠ str "INSERT")
    (h3 : query_type ≠ str "UPDATE") (h4 : query_type ≠ str "DELETE") :
    build_query table data conditions query_type =
      .error (str "Query type \x27" ++ query_type ++ str "\x27 not recognized.") := by
  simp only [build_query]
  rw [if_neg h1, if_neg h2, if_neg h3, if_neg h4]

theorem truthy_some_of_ne_nil {α : Type} {l : List α} (h : l ≠ []) :
    truthy (some l) = true := by
  cases l with
  | nil => exact absurd rfl h
  | cons a t => rfl

/-- **C1 (counterexample)**: the original parity claim quantifies over *any*
table name; a table name that itself contains the placeholder marker `%s`
yields a SELECT statement whose text contains one `%s` while the parameter
list is empty, so the placeholder count and the parameter count differ. -/
theorem build_query_placeholder_parity_cex :
    build_query (α := Unit) (str "%s") none none (str "SELECT") =
      .ok (str "SELECT * FROM \"%s\"", []) ∧
    countPS (str "SELECT * FROM \"%s\"") ≠ ([] : List Unit).length := by
  constructor
  · rfl
  · decide

/-- Witness for `build_query_placeholder_parity` at a concrete UPDATE. -/
theorem build_query_placeholder_parity_witness :
    countPS (str "UPDATE \"t\" SET \"a\"= %s WHERE \"c\"= %s") = 2 :=
  build_query_placeholder_parity (α := Nat) (str "t") (some [(str "a", 1)])
    (some [(str "c", 2)]) (str "UPDATE")
    (str "UPDATE \"t\" SET \"a\"= %s WHERE \"c\"= %s") [1, 2]
    (by decide) (by decide) (by decide) (by rfl)

/-- **C2**: for non-empty `data` and non-empty `conditions`, UPDATE returns
the data values (in insertion order) followed by the condition values (in
insertion order) as its parameter list. -/
theorem build_query_update_param_order {α : Type} (table : Str)
    (data conds : List (Str × α)) (hd : data ≠ []) (hc : conds ≠ []) :
    ∃ stmt, build_query table (some data) (some conds) (str "UPDATE") =
      .ok (stmt, data.map Prod.snd ++ conds.map Prod.snd) :=
  ⟨_, bq_update_pos_pos table (some data) (some conds)
    (truthy_some_of_ne_nil hd) (truthy_some_of_ne_nil hc)⟩

/-- Witness for `build_query_update_param_order`: `data = {a:1, b:2}`,
`conditions = {c:3}` gives params exactly `[1, 2, 3]`. -/
theorem build_query_update_param_order_witness :
    ∃ stmt, build_query (str "t") (some [(str "a", 1), (str "b", 2)])
      (some [(str "c", 3)]) (str "UPDATE") = .ok (stmt, [1, 2, 3]) :=
  build_query_update_param_order (str "t") [(str "a", 1), (str "b", 2)]
    [(str "c", 3)] (by decide) (by decide)

/-- **C4**: DELETE raises a validation error exactly when the conditions
mapping is `None` or empty, and returns a statement exactly when the
conditions mapping is present and non-empty. -/
theorem build_query_delete_requires_conditions {α : Type} (table : Str)
    (data conditions : Option (List (Str × α))) :
    ((∃ e, build_query table data conditions (str "DELETE") = .error e) ↔
      (conditions = none ∨ conditions = some [])) ∧
    ((∃ p, build_query table data conditions (str "DELETE") = .ok p) ↔
      (∃ kv l, conditions = some (kv :: l))) := by
  constructor
  · constructor
    · rintro ⟨e, he⟩
      by_cases hc : truthy conditions = true
      · rw [bq_delete_pos table data conditions hc] at he
        exact absurd he (by simp)
      · cases conditions with
        | none => exact Or.inl rfl
        | some l =>
          cases l with
          | nil => exact Or.inr rfl
          | cons kv t => exact absurd rfl hc
    · rintro (rfl | rfl)
      · exact ⟨_, bq_delete_neg table data none rfl⟩
      · exact ⟨_, bq_delete_neg table data (some []) rfl⟩
  · constructor
    · rintro ⟨p, hp⟩
      cases conditions with
      | none => rw [bq_delete_neg table data none rfl] at hp; exact absurd hp (by simp)
      | some l =>
        cases l with
        | nil => rw [bq_delete_neg table data (some []) rfl] at hp; exact absurd hp (by simp)
        | cons kv t => exact ⟨kv, t, rfl⟩
    · rintro ⟨kv, l, rfl⟩
      exact ⟨_, bq_delete_pos table data (some (kv :: l)) rfl⟩

/-- Witness for `build_query_delete_requires_conditions`: the empty
conditions dict is rejected, a one-entry dict is accepted. -/
theorem build_query_delete_requires_conditions_witness :
    (∃ e, build_query (α := Unit) (str "t") none (some []) (str "DELETE") = .error e) ∧
    (∃ p, build_query (α := Unit) (str "t") none (some [(str "id", ())])
      (str "DELETE") = .ok p) :=
  ⟨(build_query_delete_requires_conditions (str "t") none (some [])).1.mpr (Or.inr rfl),
   (build_query_delete_requires_conditions (str "t") none
      (some [(str "id", ())])).2.mpr ⟨(str "id", ()), [], rfl⟩⟩

/-- **C8**: any operation kind outside {SELECT, INSERT, UPDATE, DELETE}
produces a `ValueError` whose message embeds the unrecognized kind verbatim
(so the error names the kind), and no statement is returned. -/
theorem build_query_unrecognized_kind {α : Type} (table : Str)
    (data conditions : Option (List (Str × α))) (query_type : Str)
    (h1 : query_type ≠ str "SELECT") (h2 : query_type ≠ str "INSERT")
    (h3 : query_type ≠ str "UPDATE") (h4 : query_type ≠ str "DELETE") :
    build_query table data conditions query_type =
      .error (str "Query type \x27" ++ query_type ++ str "\x27 not recognized.") ∧
    ∃ pre post : Str,
      str "Query type \x27" ++ query_type ++ str "\x27 not recognized." =
        pre ++ query_type ++ post :=
  ⟨bq_unrecognized table data conditions query_type h1 h2 h3 h4,
   ⟨str "Query type \x27", str "\x27 not recognized.", rfl⟩⟩

/-- Witness for `build_query_unrecognized_kind`: kind `PATCH` is rejected
with an error message naming `PATCH`. -/
theorem build_query_unrecognized_kind_witness :
    build_query (α := Unit) (str "orders") none none (str "PATCH") =
      .error (str "Query type \x27PATCH\x27 not recognized.") :=
  (build_query_unrecognized_kind (str "orders") none none (str "PATCH")
    (by decide) (by decide) (by decide) (by decide)).1

/-- **C10**: UPDATE with non-empty data and absent/empty conditions does not
raise: it returns a statement with no WHERE clause (given literally, with
nothing after the SET assignments); and UPDATE errors exactly when the data
mapping is falsy (absent or empty), with no guard on conditions. -/
theorem build_query_update_no_conditions_ok {α : Type} (table : Str)
    (data : List (Str × α)) (conditions : Option (List (Str × α))) :
    (data ≠ [] → truthy conditions = false →
      build_query table (some data) conditions (str "UPDATE") =
        .ok (str "UPDATE " ++ sanitize_identifier table ++ str " SET " ++
               pyJoin (str ", ") (condPieces data), data.map Prod.snd)) ∧
    (∀ d : Option (List (Str × α)),
      (∃ e, build_query table d conditions (str "UPDATE") = .error e) ↔
        truthy d = false) := by
  constructor
  · intro hd hc
    exact bq_update_pos_neg table (some data) conditions (truthy_some_of_ne_nil hd) hc
  · intro d
    constructor
    · rintro ⟨e, he⟩
      by_cases ht : truthy d = true
      · by_cases hc : truthy conditions = true
        · rw [bq_update_pos_pos table d conditions ht hc] at he
          exact absurd he (by simp)
        · rw [bq_update_pos_neg table d conditions ht (Bool.eq_false_iff.mpr hc)] at he
          exact absurd he (by simp)
      · exact Bool.eq_false_iff.mpr ht
    · intro hd
      exact ⟨_, bq_update_neg table d conditions hd⟩

/-- Witness for `build_query_update_no_conditions_ok`: an unconditioned
UPDATE with one data column succeeds and has no WHERE clause. -/
theorem build_query_update_no_conditions_ok_witness :
    build_query (α := Nat) (str "t") (some [(str "a", 1)]) none (str "UPDATE") =
      .ok (str "UPDATE \"t\" SET \"a\"= %s", [1]) :=
  (build_query_update_no_conditions_ok (str "t") [(str "a", 1)] none).1
    (by decide) rfl

/-- **C5**: `sanitize_identifier` is total (a Lean function over all of
`Str`, including the empty string and arbitrary code points) and equals the
specification form: the raw identifier with every double-quote doubled,
wrapped in double quotes; in particular `a"b` becomes `"a""b"`. -/
theorem sanitize_identifier_quotes_and_escapes :
    (∀ raw : Str, sanitize_identifier raw =
      '"' :: (raw.flatMap (fun c => if c = '"' then ['"', '"'] else [c])) ++ ['"']) ∧
    sanitize_identifier (str "a\"b") = str "\"a\"\"b\"" := by
  constructor
  · intro raw
    have h : escQuote raw = raw.flatMap (fun c => if c = '"' then ['"', '"'] else [c]) := by
      induction raw with
      | nil => rfl
      | cons c t ih => by_cases hc : c = '"' <;> simp [escQuote, hc, ih]
    rw [sanitize_identifier, h]
  · decide

theorem escQuote_inj : ∀ x y : Str, escQuote x = escQuote y → x = y := by
  intro x
  induction x with
  | nil =>
    intro y h
    cases y with
    | nil => rfl
    | cons d u =>
      exfalso
      by_cases hd : d = '"' <;> simp [escQuote, hd] at h
  | cons c t ih =>
    intro y h
    cases y with
    | nil =>
      exfalso
      by_cases hc : c = '"' <;> simp [escQuote, hc] at h
    | cons d u =>
      by_cases hc : c = '"' <;> by_cases hd : d = '"'
      · subst hc
        subst hd
        have hQt : escQuote ('"' :: t) = '"' :: '"' :: escQuote t := by simp [escQuote]
        have hQu : escQuote ('"' :: u) = '"' :: '"' :: escQuote u := by simp [escQuote]
        rw [hQt, hQu] at h
        injection h with h1 h2
        injection h2 with h3 h4
        rw [ih u h4]
      · exfalso
        subst hc
        have hQt : escQuote ('"' :: t) = '"' :: '"' :: escQuote t := by simp [escQuote]
        have hEu : escQuote (d :: u) = d :: escQuote u := by simp [escQuote, hd]
        rw [hQt, hEu] at h
        injection h with h1 h2
        exact hd h1.symm
      · exfalso
        subst hd
        have hEt : escQuote (c :: t) = c :: escQuote t := by simp [escQuote, hc]
        have hQu : escQuote ('"' :: u) = '"' :: '"' :: escQuote u := by simp [escQuote]
        rw [hEt, hQu] at h
        injection h with h1 h2
        exact hc h1
      · have hEt : escQuote (c :: t) = c :: escQuote t := by simp [escQuote, hc]
        have hEu : escQuote (d :: u) = d :: escQuote u := by simp [escQuote, hd]
        rw [hEt, hEu] at h
        injection h with h1 h2
        rw [h1, ih u h2]

/-- **C6**: `sanitize_identifier` is injective: distinct raw identifiers
always produce distinct quoted outputs (the quote-doubling code is uniquely
decodable). -/
theorem sanitize_identifier_injective : Function.Injective sanitize_identifier := by
  intro a b h
  unfold sanitize_identifier at h
  rw [show ('"' :: escQuote a ++ ['"'] : Str) = '"' :: (escQuote a ++ ['"']) from rfl,
    show ('"' :: escQuote b ++ ['"'] : Str) = '"' :: (escQuote b ++ ['"']) from rfl] at h
  injection h with h1 h2
  exact escQuote_inj a b (List.append_cancel_right h2)

/-- Witness for `sanitize_identifier_injective`, applied at a concrete
evaluated pair of equal sanitized outputs. -/
theorem sanitize_identifier_injective_witness : str "ab" = str "ab" :=
  sanitize_identifier_injective
    (show sanitize_identifier (str "ab") = sanitize_identifier (str "ab") from rfl)

/-! ### C9: the statement text depends only on table, kind and keys -/

theorem truthy_eq_keysOf (o : Option (List (Str × α))) :
    truthy o = !(keysOf o).isEmpty := by
  cases o with
  | none => rfl
  | some l => cases l with
    | nil => rfl
    | cons kv t => rfl

theorem condPieces_eq_keys (l : List (Str × α)) :
    condPieces l = (l.map Prod.fst).map (fun k => sanitize_identifier k ++ str "= %s") := by
  rw [condPieces, List.map_map]
  rfl

theorem columns_eq_keys (l : List (Str × α)) :
    l.map (fun kv => sanitize_identifier kv.1) =
      (l.map Prod.fst).map sanitize_identifier := by
  rw [List.map_map]
  rfl

theorem placeholders_eq_keys (l : List (Str × α)) :
    l.map (fun _ => str "%s") = (l.map Prod.fst).map (fun _ => str "%s") := by
  rw [List.map_map]
  rfl

/-- **C9**: the statement string returned by `build_query` (and likewise the
error message, when one is raised) depends only on the table name, the
operation kind and the key sequences of the two mappings — never on the
mapped values, which may even live in a different type.  The values surface
only in the parameter list. -/
theorem build_query_stmt_depends_only_on_keys {α β : Type} (table : Str)
    (d₁ c₁ : Option (List (Str × α))) (d₂ c₂ : Option (List (Str × β)))
    (query_type : Str)
    (hd : keysOf d₁ = keysOf d₂) (hc : keysOf c₁ = keysOf c₂) :
    (build_query table d₁ c₁ query_type).map Prod.fst =
      (build_query table d₂ c₂ query_type).map Prod.fst := by
  have htd : truthy d₁ = truthy d₂ := by rw [truthy_eq_keysOf, truthy_eq_keysOf, hd]
  have htc : truthy c₁ = truthy c₂ := by rw [truthy_eq_keysOf, truthy_eq_keysOf, hc]
  by_cases h1 : query_type = str "SELECT"
  · subst h1
    by_cases ht : truthy c₁ = true
    · rw [bq_select_pos table d₁ c₁ ht, bq_select_pos table d₂ c₂ (htc ▸ ht),
        Except.map, Except.map, condPieces_eq_keys, condPieces_eq_keys]
      show Except.ok _ = Except.ok _
      rw [show ((c₁.getD []).map Prod.fst : List Str) = (c₂.getD []).map Prod.fst from hc]
    · rw [bq_select_neg table d₁ c₁ (Bool.eq_false_iff.mpr ht),
        bq_select_neg table d₂ c₂ (htc ▸ Bool.eq_false_iff.mpr ht)]
      rfl
  · by_cases h2 : query_type = str "INSERT"
    · subst h2
      by_cases ht : truthy d₁ = true
      · rw [bq_insert_pos table d₁ c₁ ht, bq_insert_pos table d₂ c₂ (htd ▸ ht),
          Except.map, Except.map, columns_eq_keys, columns_eq_keys,
          placeholders_eq_keys, placeholders_eq_keys]
        show Except.ok _ = Except.ok _
        rw [show ((d₁.getD []).map Prod.fst : List Str) = (d₂.getD []).map Prod.fst from hd]
      · rw [bq_insert_neg table d₁ c₁ (Bool.eq_false_iff.mpr ht),
          bq_insert_neg table d₂ c₂ (htd ▸ Bool.eq_false_iff.mpr ht)]
        rfl
    · by_cases h3 : query_type = str "UPDATE"
      · subst h3
        by_cases ht : truthy d₁ = true
        · by_cases hcc : truthy c₁ = true
          · rw [bq_update_pos_pos table d₁ c₁ ht hcc,
              bq_update_pos_pos table d₂ c₂ (htd ▸ ht) (htc ▸ hcc),
              Except.map, Except.map, condPieces_eq_keys, condPieces_eq_keys,
              condPieces_eq_keys, condPieces_eq_keys]
            show Except.ok _ = Except.ok _
            rw [show ((d₁.getD []).map Prod.fst : List Str) = (d₂.getD []).map Prod.fst from hd,
              show ((c₁.getD []).map Prod.fst : List Str) = (c₂.getD []).map Prod.fst from hc]
          · rw [bq_update_pos_neg table d₁ c₁ ht (Bool.eq_false_iff.mpr hcc),
              bq_update_pos_neg table d₂ c₂ (htd ▸ ht) (htc ▸ Bool.eq_false_iff.mpr hcc),
              Except.map, Except.map, condPieces_eq_keys, condPieces_eq_keys]
            show Except.ok _ = Except.ok _
            rw [show ((d₁.getD []).map Prod.fst : List Str) = (d₂.getD []).map Prod.fst from hd]
        · rw [bq_update_neg table d₁ c₁ (Bool.eq_false_iff.mpr ht),
            bq_update_neg table d₂ c₂ (htd ▸ Bool.eq_false_iff.mpr ht)]
          rfl
      · by_cases h4 : query_type = str "DELETE"
        · subst h4
          by_cases hcc : truthy c₁ = true
          · rw [bq_delete_pos table d₁ c₁ hcc, bq_delete_pos table d₂ c₂ (htc ▸ hcc),
              Except.map, Except.map, condPieces_eq_keys, condPieces_eq_keys]
            show Except.ok _ = Except.ok _
            rw [show ((c₁.getD []).map Prod.fst : List Str) = (c₂.getD []).map Prod.fst from hc]
          · rw [bq_delete_neg table d₁ c₁ (Bool.eq_false_iff.mpr hcc),
              bq_delete_neg table d₂ c₂ (htc ▸ Bool.eq_false_iff.mpr hcc)]
            rfl
        · rw [bq_unrecognized table d₁ c₁ query_type h1 h2 h3 h4,
            bq_unrecognized table d₂ c₂ query_type h1 h2 h3 h4]
          rfl

/-- Witness for `build_query_stmt_depends_only_on_keys`: same keys, wholly
different values (of a different type even) give the same statement text. -/
theorem build_query_stmt_depends_only_on_keys_witness :
    (build_query (str "t") (some [(str "a", 1)]) (some [(str "c", 2)])
      (str "UPDATE")).map Prod.fst =
    (build_query (str "t") (some [(str "a", str "x")]) (some [(str "c", str "y")])
      (str "UPDATE")).map Prod.fst :=
  build_query_stmt_depends_only_on_keys (str "t") (some [(str "a", 1)])
    (some [(str "c", 2)]) (some [(str "a", str "x")]) (some [(str "c", str "y")])
    (str "UPDATE") rfl rfl

mutual
theorem jsonDumps_isSome (v : PyVal) : (jsonDumps v).isSome = noOther v := by
  cases v with
  | vnone => rfl
  | vbool b => cases b <;> rfl
  | vint n => rfl
  | vfloat r => rfl
  | vstr s => rfl
  | vother s => rfl
  | vlist xs =>
    have h := jsonDumpsList_isSome xs
    simp only [jsonDumps, noOther]
    cases hl : jsonDumpsList xs with
    | none => rw [hl] at h; simpa using h.symm
    | some ps => rw [hl] at h; simpa using h.symm
  | vdict kvs =>
    have h := jsonDumpsKvs_isSome kvs
    simp only [jsonDumps, noOther]
    cases hl : jsonDumpsKvs kvs with
    | none => rw [hl] at h; simpa using h.symm
    | some ps => rw [hl] at h; simpa using h.symm
theorem jsonDumpsList_isSome (l : PyList) : (jsonDumpsList l).isSome = noOtherList l := by
  cases l with
  | nil => rfl
  | cons v tl =>
    have h1 := jsonDumps_isSome v
    have h2 := jsonDumpsList_isSome tl
    simp only [jsonDumpsList, noOtherList]
    cases hv : jsonDumps v with
    | none => rw [hv] at h1; rw [← h1]; rfl
    | some s =>
      rw [hv] at h1
      cases ht : jsonDumpsList tl with
      | none => rw [ht] at h2; rw [← h1, ← h2]; rfl
      | some rest => rw [ht] at h2; rw [← h1, ← h2]; rfl
theorem jsonDumpsKvs_isSome (d : PyDict) : (jsonDumpsKvs d).isSome = noOtherKvs d := by
  cases d with
  | nil => rfl
  | cons k v tl =>
    have h1 := jsonDumps_isSome v
    have h2 := jsonDumpsKvs_isSome tl
    simp only [jsonDumpsKvs, noOtherKvs]
    cases hv : jsonDumps v with
    | none => rw [hv] at h1; rw [← h1]; rfl
    | some s =>
      rw [hv] at h1
      cases ht : jsonDumpsKvs tl with
      | none => rw [ht] at h2; rw [← h1, ← h2]; rfl
      | some rest => rw [ht] at h2; rw [← h1, ← h2]; rfl
end

/-- **C7 (counterexample)**: `sanitize_value` *can* raise.  A list containing
a non-JSON-serializable object (for instance an arbitrary Python object,
modelled by `vother`) is a composite, yet `json.dumps` raises `TypeError`
inside `sanitize_value`, contradicting both "returns the JSON text encoding"
and "never raises an error" of the original claim. -/
theorem sanitize_value_raises_cex :
    isComposite (PyVal.vlist (.cons (.vother (str "obj")) .nil)) = true ∧
    sanitize_value (PyVal.vlist (.cons (.vother (str "obj")) .nil)) =
      .error (str "TypeError: not JSON serializable") := by
  constructor
  · rfl
  · rfl

/-- **C7 (amended)**: `sanitize_value` classifies its input exactly as the
spec says — primitives pass through unchanged, non-composite non-primitives
are stringified — but a composite is JSON-encoded only when every element
inside it is JSON serializable; when a composite contains a
non-serializable object, `sanitize_value` propagates `json.dumps`'s
`TypeError` instead of returning. -/
theorem sanitize_value_classification :
    (∀ v, isPrimitive v = true → sanitize_value v = .ok v) ∧
    (∀ s, sanitize_value (.vother s) = .ok (.vstr s)) ∧
    (∀ v, isComposite v = true → noOther v = true →
      ∃ s, jsonDumps v = some s ∧ sanitize_value v = .ok (.vstr s)) ∧
    (∀ v, isComposite v = true → noOther v = false →
      ∃ m, sanitize_value v = .error m) := by
  refine ⟨?_, ?_, ?_, ?_⟩
  · intro v h
    cases v with
    | vnone => rfl
    | vbool b => rfl
    | vint n => rfl
    | vfloat r => rfl
    | vstr s => rfl
    | vother s => exact absurd h (by simp [isPrimitive])
    | vlist xs => exact absurd h (by simp [isPrimitive])
    | vdict kvs => exact absurd h (by simp [isPrimitive])
  · intro s
    rfl
  · intro v hcomp hno
    have hsome : (jsonDumps v).isSome = true := by rw [jsonDumps_isSome, hno]
    obtain ⟨s, hs⟩ := Option.isSome_iff_exists.mp hsome
    refine ⟨s, hs, ?_⟩
    cases v with
    | vlist xs => simp only [sanitize_value, hs]
    | vdict kvs => simp only [sanitize_value, hs]
    | vnone => exact absurd hcomp (by simp [isComposite])
    | vbool b => exact absurd hcomp (by simp [isComposite])
    | vint n => exact absurd hcomp (by simp [isComposite])
    | vfloat r => exact absurd hcomp (by simp [isComposite])
    | vstr s2 => exact absurd hcomp (by simp [isComposite])
    | vother s2 => exact absurd hcomp (by simp [isComposite])
  · intro v hcomp hno
    have hnone : jsonDumps v = none := by
      have h := jsonDumps_isSome v
      rw [hno] at h
      exact Option.not_isSome_iff_eq_none.mp (by simp [h])
    refine ⟨str "TypeError: not JSON serializable", ?_⟩
    cases v with
    | vlist xs => simp only [sanitize_value, hnone]
    | vdict kvs => simp only [sanitize_value, hnone]
    | vnone => exact absurd hcomp (by simp [isComposite])
    | vbool b => exact absurd hcomp (by simp [isComposite])
    | vint n => exact absurd hcomp (by simp [isComposite])
    | vfloat r => exact absurd hcomp (by simp [isComposite])
    | vstr s2 => exact absurd hcomp (by simp [isComposite])
    | vother s2 => exact absurd hcomp (by simp [isComposite])

/-- Witness for `sanitize_value_classification`, instantiating every
conjunct whose hypotheses are satisfiable at concrete inputs:
`sanitize_value(5) = 5`, `sanitize_value({"x": 1})` is the JSON text
`{"x": 1}`, and a list containing an unserializable object raises. -/
theorem sanitize_value_classification_witness :
    sanitize_value (PyVal.vint 5) = .ok (PyVal.vint 5) ∧
    sanitize_value (PyVal.vother (str "text")) = .ok (PyVal.vstr (str "text")) ∧
    (∃ s, jsonDumps (PyVal.vdict (.cons (str "x") (.vint 1) .nil)) = some s ∧
      sanitize_value (PyVal.vdict (.cons (str "x") (.vint 1) .nil)) = .ok (.vstr s)) ∧
    (∃ m, sanitize_value (PyVal.vlist (.cons (.vother (str "o")) .nil)) = .error m) :=
  ⟨sanitize_value_classification.1 (PyVal.vint 5) rfl,
   sanitize_value_classification.2.1 (str "text"),
   sanitize_value_classification.2.2.1 (PyVal.vdict (.cons (str "x") (.vint 1) .nil))
     rfl rfl,
   sanitize_value_classification.2.2.2 (PyVal.vlist (.cons (.vother (str "o")) .nil))
     rfl rfl⟩

/-- **C3 (counterexample)**: `build_query` does *not* pass data values
through `sanitize_value`.  Inserting a dict value, the parameter list holds
the raw dict, while `sanitize_value` of that value is its JSON text — two
different values.  (The value-sanitization the claim describes happens only
in `insert_record`, which assembles its own statement without calling
`build_query`.) -/
theorem build_query_insert_params_not_sanitized_cex :
    build_query (str "t") (some [(str "a", PyVal.vdict .nil)]) none (str "INSERT") =
      .ok (str "INSERT INTO \"t\" (\"a\") VALUES (%s)", [PyVal.vdict .nil]) ∧
    sanitize_value (PyVal.vdict .nil) = .ok (PyVal.vstr (str "\x7b\x7d")) ∧
    PyVal.vdict .nil ≠ PyVal.vstr (str "\x7b\x7d") := by
  refine ⟨?_, ?_, ?_⟩
  · rfl
  · rfl
  · intro h
    exact PyVal.noConfusion h

/-- **C3 (amended)**: for every non-empty data mapping, INSERT returns the
statement whose column list is the data keys passed through the identifier
sanitizer, in insertion order, with one positional placeholder per column —
and a parameter list holding the *raw* data values (not passed through
`sanitize_value`), in that same key order. -/
theorem build_query_insert_shape {α : Type} (table : Str) (data : List (Str × α))
    (conditions : Option (List (Str × α))) (hd : data ≠ []) :
    build_query table (some data) conditions (str "INSERT") =
      .ok (str "INSERT INTO " ++ sanitize_identifier table ++ str " (" ++
             pyJoin (str ", ") (data.map (fun kv => sanitize_identifier kv.1)) ++
             str ") VALUES (" ++
             pyJoin (str ", ") (data.map (fun _ => str "%s")) ++ str ")",
           data.map Prod.snd) :=
  bq_insert_pos table (some data) conditions (truthy_some_of_ne_nil hd)

/-- Witness for `build_query_insert_shape` at the spec's own INSERT
scenario. -/
theorem build_query_insert_shape_witness :
    build_query (α := Nat) (str "users") (some [(str "name", 7), (str "age", 30)])
      none (str "INSERT") =
      .ok (str "INSERT INTO \"users\" (\"name\", \"age\") VALUES (%s, %s)", [7, 30]) :=
  build_query_insert_shape (str "users") [(str "name", 7), (str "age", 30)] none
    (by decide)
